import Mathlib

/-!
Verification of the CreatorFlow server against its specification.

The definitions below are shallow embeddings of the JavaScript source:

* OAuth state handling: `issueOAuthStateAndAuthenticate` and
  `enforceValidOAuthState` from src/server.js (lines 300 to 328).
* HTTP retry client: `normalizeRetryCount`, `isRetryableStatus` and the
  retry loop of `fetchWithRetry` from src/lib/http-client.js.
* OpenAI client: `shouldFallbackToResponses`, prompt validation and the
  chat-completions to responses fallback of `generateContent` from
  src/lib/openai.js.
* OpenAI model catalog service: `listModels`, `normaliseModel` and
  `getCacheInfo` from the model service module.

JavaScript strings are `String`, possibly-undefined strings are
`Option String`, and JavaScript numbers are modelled by `JsNum`
(NaN, the infinities, or a finite rational).
-/

/-! ### OAuth state model (src/server.js) -/

/-- The per-session map stored under `req.session.oauthStates`:
an association of provider name to pending state token.  A JavaScript
object has unique keys, which `setState` maintains. -/
abbrev OAuthStates := List (String × String)

/-- Truthiness test for a possibly-undefined JavaScript string:
`undefined` and the empty string are falsy. -/
def optFalsy : Option String → Bool
  | none => true
  | some s => s == ""

/-- `req.session.oauthStates[provider]` : lookup by provider key. -/
def lookupState (states : OAuthStates) (provider : String) : Option String :=
  match states.find? (fun entry => entry.1 == provider) with
  | some entry => some entry.2
  | none => none

/-- `req.session.oauthStates[provider] = token` : assignment on a
JavaScript object replaces any existing binding for the key. -/
def setState (states : OAuthStates) (provider token : String) : OAuthStates :=
  (provider, token) :: states.filter (fun entry => entry.1 != provider)

/-- `delete req.session.oauthStates[provider]`. -/
def deleteState (states : OAuthStates) (provider : String) : OAuthStates :=
  states.filter (fun entry => entry.1 != provider)

/-- Number of bindings a provider key has in the session map. -/
def countKey (states : OAuthStates) (provider : String) : Nat :=
  (states.filter (fun entry => entry.1 == provider)).length

/-- The object passed to `console.warn` by `enforceValidOAuthState` on a
validation failure: the fixed message together with the fields
`provider`, `state` and `savedState` of the logged object literal. -/
structure WarnLog where
  message : String
  provider : String
  state : Option String
  savedState : Option String
deriving DecidableEq

/-- What the middleware does with the response: answer directly with a
JSON error (`res.status(status).json(\x7b ok: false, error \x7d)`) or call
`next()` so the pipeline continues. -/
inductive HttpAction where
  | jsonError (status : Nat) (errorBody : String)
  | next
deriving DecidableEq

/-- Result of running the `enforceValidOAuthState` middleware on one
request: the action taken, the session map afterwards, and the warning
logged (if any). -/
structure EnforceResult where
  action : HttpAction
  states : OAuthStates
  warned : Option WarnLog
deriving DecidableEq

/-- `enforceValidOAuthState(provider)` from src/server.js lines 314-328:
reads `state` from the query and the saved token from the session; when
either is falsy or they differ it logs a warning carrying both values and
answers `403` with a JSON body, leaving the session unchanged; otherwise
it deletes the pending token and calls `next()`. -/
def enforceValidOAuthState (provider : String) (queryState : Option String)
    (states : OAuthStates) : EnforceResult :=
  let savedState := lookupState states provider
  if optFalsy queryState || optFalsy savedState || queryState != savedState then
    { action := HttpAction.jsonError 403 "Invalid OAuth state."
      states := states
      warned := some { message := "[WARN] OAuth state validation failed"
                       provider := provider
                       state := queryState
                       savedState := savedState } }
  else
    { action := HttpAction.next
      states := deleteState states provider
      warned := none }

/-- The session update performed by `issueOAuthStateAndAuthenticate`
(src/server.js lines 300-312): store the freshly generated token for the
provider, overwriting any previous one. -/
def issueOAuthState (provider token : String) (states : OAuthStates) : OAuthStates :=
  setState states provider token

/-- In the callback route, `passport.authenticate` (the authorization-code
exchange) is the middleware after `enforceValidOAuthState`, so the
exchange runs exactly when the state check calls `next()`. -/
def callbackExchangeInvoked (provider : String) (queryState : Option String)
    (states : OAuthStates) : Bool :=
  match (enforceValidOAuthState provider queryState states).action with
  | HttpAction.next => true
  | _ => false

/-! ### HTTP retry client (src/lib/http-client.js) -/

/-- A JavaScript number: NaN, an infinity, or a finite rational. -/
inductive JsNum where
  | nan
  | posInf
  | negInf
  | finite (value : ℚ)
deriving DecidableEq

/-- `DEFAULT_MAX_RETRIES`: `parseInt` of the `HTTP_MAX_RETRIES`
environment variable, which defaults to the string for three.  The
environment is a deployment input, so the configured value is a
parameter of the embedding below; this constant is the default. -/
def DEFAULT_MAX_RETRIES : Nat := 3

/-- `normalizeRetryCount(value)`: a non-finite value falls back to the
configured default, a finite value is floored (`Math.floor`) and clamped
below by zero (`Math.max(0, _)`). -/
def normalizeRetryCount (defaultMaxRetries : Nat) (value : JsNum) : Nat :=
  match value with
  | JsNum.finite q => (max 0 q.floor).toNat
  | _ => defaultMaxRetries

/-- `isRetryableStatus(status)`. -/
def isRetryableStatus (status : Nat) : Bool :=
  [408, 425, 429, 500, 502, 503, 504].contains status

/-- What one attempt of the transport produces: a response with a
status, or a thrown error (whose only inspected property is whether its
name is `AbortError`). -/
inductive FetchResult where
  | resp (status : Nat)
  | err (isAbort : Bool)
deriving DecidableEq

/-- The value `fetchWithRetry` settles with: the response of some
attempt (identified by its zero-based index), or the error rethrown
from some attempt. -/
inductive FetchOutcome where
  | returned (attempt : Nat) (status : Nat)
  | threw (attempt : Nat) (isAbort : Bool)
deriving DecidableEq

/-- Attempts made before settling: the settling attempt has zero-based
index `attempt`, so `attempt + 1` transport calls were made. -/
def attemptsMade : FetchOutcome → Nat
  | FetchOutcome.returned attempt _ => attempt + 1
  | FetchOutcome.threw attempt _ => attempt + 1

/-- The `for (let attempt = 0; attempt <= maxRetries; ...)` loop of
`fetchWithRetry`, with `remaining = maxRetries - attempt`.  A response
is returned when its status is not retryable or the attempt budget is
spent; an error is rethrown when it is an abort or the budget is spent;
otherwise the loop retries (the backoff sleep has no observable effect
here).  The `Exhausted retry attempts` throw after the loop is
unreachable because the final iteration always settles. -/
def fetchLoop (transport : Nat → FetchResult) (attempt : Nat) :
    Nat → FetchOutcome
  | 0 =>
    match transport attempt with
    | FetchResult.resp status => FetchOutcome.returned attempt status
    | FetchResult.err isAbort => FetchOutcome.threw attempt isAbort
  | remaining + 1 =>
    match transport attempt with
    | FetchResult.resp status =>
      if isRetryableStatus status then
        fetchLoop transport (attempt + 1) remaining
      else
        FetchOutcome.returned attempt status
    | FetchResult.err isAbort =>
      if isAbort then
        FetchOutcome.threw attempt isAbort
      else
        fetchLoop transport (attempt + 1) remaining

/-- `fetchWithRetry(url, options, \x7b retries \x7d)` restricted to its
retry behaviour: the attempt budget is the normalized `retries` option
and the loop starts at attempt zero. -/
def fetchWithRetry (defaultMaxRetries : Nat) (retries : JsNum)
    (transport : Nat → FetchResult) : FetchOutcome :=
  fetchLoop transport 0 (normalizeRetryCount defaultMaxRetries retries)

/-- A transport step after which the loop would keep going: a response
with a retryable status, or a thrown non-abort error. -/
def retryableStep : FetchResult → Bool
  | FetchResult.resp status => isRetryableStatus status
  | FetchResult.err isAbort => !isAbort

/-! ### OpenAI client (src/lib/openai.js) -/

/-- `FALLBACK_ERROR_PATTERNS`: the three case-insensitive regexes, as
the literal texts they match. -/
def FALLBACK_ERROR_PATTERNS : List String :=
  ["use the responses api", "use the responses endpoint", "try the responses api"]

/-- `text.toLowerCase()` on the character list (ASCII lowering by
`Char.toLower`, which agrees with JavaScript on the ASCII patterns and
bodies involved). -/
def jsToLower (text : String) : List Char :=
  text.data.map Char.toLower

/-- `pattern.test(text)` for an unanchored case-insensitive literal
regex: the lowered pattern occurs inside the lowered text. -/
def regexTestCI (pattern text : String) : Bool :=
  decide (jsToLower pattern <:+: jsToLower text)

/-- `shouldFallbackToResponses(status, body)` from src/lib/openai.js:
true on 404 or 405; on 400 with a string body, true when some fallback
pattern matches the body; false otherwise. -/
def shouldFallbackToResponses (status : Nat) (body : Option String) : Bool :=
  if status == 404 || status == 405 then
    true
  else if status == 400 then
    match body with
    | some b => FALLBACK_ERROR_PATTERNS.any (fun pattern => regexTestCI pattern b)
    | none => false
  else
    false

/-- A JavaScript `prompt` argument: a string, or any non-string value. -/
inductive JsPrompt where
  | str (s : String)
  | notAString
deriving DecidableEq

/-- `prompt.trim()`: whitespace stripped from both ends (the JavaScript
whitespace set is modelled by `Char.isWhitespace`). -/
def jsTrim (s : String) : String :=
  String.mk (((s.data.dropWhile Char.isWhitespace).reverse.dropWhile
    Char.isWhitespace).reverse)

/-- Negation of the guard `typeof prompt !== 'string' ||
prompt.trim().length === 0` shared by `generateContent` and
`ensurePrompt`. -/
def promptOk : JsPrompt → Bool
  | JsPrompt.str s => (jsTrim s).length != 0
  | JsPrompt.notAString => false

/-- A fetch response as the client inspects it: its status and the body
text. -/
structure HttpReply where
  status : Nat
  body : String
deriving DecidableEq

/-- `response.ok` per the fetch standard: status in the range 200-299. -/
def respOk (status : Nat) : Bool :=
  200 ≤ status && status < 300

/-- The two upstream endpoints `generateContent` may call. -/
inductive Endpoint where
  | chatCompletions
  | responses
deriving DecidableEq

/-- The errors `generateContent` can settle with.  `requestError` is an
`OpenAiRequestError` carrying the failing endpoint, status, body text
and `shouldFallback` flag; `noContent` covers the
`AI API returned no content.` (and malformed payload) throws;
`invalidPrompt` is the prompt validation throw. -/
inductive GenError where
  | invalidPrompt
  | requestError (endpoint : Endpoint) (status : Nat) (body : String)
      (shouldFallback : Bool)
  | noContent
deriving DecidableEq

/-- The settled value of one of the client invocations: a content
string, or a thrown error. -/
inductive GenResult where
  | ok (content : String)
  | error (e : GenError)
deriving DecidableEq

/-- The `message` of each error as built in the source. -/
def genErrorMessage : GenError → String
  | GenError.invalidPrompt => "Prompt must be a non-empty string."
  | GenError.requestError Endpoint.chatCompletions status _ _ =>
      "OpenAI chat completion failed: " ++ toString status
  | GenError.requestError Endpoint.responses status _ _ =>
      "OpenAI responses call failed: " ++ toString status
  | GenError.noContent => "AI API returned no content."

/-- `invokeChatCompletions`: on a non-ok response, read the body text
and throw an `OpenAiRequestError` whose `shouldFallback` flag is
computed by `shouldFallbackToResponses`; on an ok response, extract the
trimmed message content from the JSON payload (the extraction of
`data.choices[0].message.content` is the opaque `extractContent`) and
throw a plain error when there is none. -/
def invokeChatCompletions (reply : HttpReply)
    (extractContent : String → Option String) : GenResult :=
  if respOk reply.status then
    match extractContent reply.body with
    | some content => GenResult.ok content
    | none => GenResult.error GenError.noContent
  else
    GenResult.error (GenError.requestError Endpoint.chatCompletions reply.status
      reply.body (shouldFallbackToResponses reply.status (some reply.body)))

/-- `invokeResponses`: like the chat call, but an `OpenAiRequestError`
thrown here keeps the default `shouldFallback = false`. -/
def invokeResponses (reply : HttpReply)
    (extractContent : String → Option String) : GenResult :=
  if respOk reply.status then
    match extractContent reply.body with
    | some content => GenResult.ok content
    | none => GenResult.error GenError.noContent
  else
    GenResult.error (GenError.requestError Endpoint.responses reply.status
      reply.body false)

/-- A run of `generateContent`: the settled value and the upstream
endpoints fetched, in order. -/
structure GenRun where
  result : GenResult
  calls : List Endpoint
deriving DecidableEq

/-- `generateContent(prompt, options)` from src/lib/openai.js lines
226-260 (the same prompt guard and fallback logic as
`generateContentWithFallback` via `ensurePrompt`): reject a non-string
or blank prompt before any fetch; otherwise call chat completions, and
on an `OpenAiRequestError` with `shouldFallback` set, call the
responses endpoint, rethrowing every other failure. -/
def generateContent (prompt : JsPrompt) (chatReply respReply : HttpReply)
    (extractChat extractResp : String → Option String) : GenRun :=
  if !promptOk prompt then
    { result := GenResult.error GenError.invalidPrompt, calls := [] }
  else
    match invokeChatCompletions chatReply extractChat with
    | GenResult.ok content =>
      { result := GenResult.ok content, calls := [Endpoint.chatCompletions] }
    | GenResult.error e =>
      match e with
      | GenError.requestError _ _ _ true =>
        { result := invokeResponses respReply extractResp
          calls := [Endpoint.chatCompletions, Endpoint.responses] }
      | _ =>
        { result := GenResult.error e, calls := [Endpoint.chatCompletions] }

/-! ### OpenAI model catalog service (createOpenAiModelService) -/

/-- A normalised catalog entry as built by `normaliseModel`. -/
structure ModelEntry where
  id : String
  created : Option Int
  ownedBy : Option String
deriving DecidableEq

/-- A raw entry of the upstream models page, as far as `normaliseModel`
inspects it: whether it is a non-null object, its `id` when that is a
string, its `created` when that is a number, and its `owned_by` and
`ownedBy` when those are strings (null otherwise). -/
structure RawModel where
  isObject : Bool
  id : Option String
  created : Option Int
  owned_by : Option String
  ownedBy : Option String
deriving DecidableEq

/-- `normaliseModel(entry)`: null for a non-object or an entry without a
string `id`; otherwise keep `id`, the numeric `created` or null, and
`owned_by` when it is a string, else `ownedBy ?? null`. -/
def normaliseModel (entry : RawModel) : Option ModelEntry :=
  if !entry.isObject then
    none
  else
    match entry.id with
    | none => none
    | some entryId =>
      some { id := entryId
             created := entry.created
             ownedBy :=
               match entry.owned_by with
               | some s => some s
               | none => entry.ownedBy }

/-- The closure state of `createOpenAiModelService`: `cachedModels` and
`cacheExpiresAt` (a millisecond timestamp, initially zero). -/
structure CacheState where
  cachedModels : Option (List ModelEntry)
  cacheExpiresAt : Nat
deriving DecidableEq

/-- The state a fresh service starts in. -/
def initialCacheState : CacheState :=
  { cachedModels := none, cacheExpiresAt := 0 }

/-- What `client.models.list` settles with: a page of raw entries, or a
thrown error whose `message` property may be missing. -/
structure UpstreamError where
  message : Option String
deriving DecidableEq

/-- The settled value of `listModels`: the catalog, or the thrown error
message. -/
inductive ModelsResult where
  | ok (models : List ModelEntry)
  | error (message : String)
deriving DecidableEq

/-- The guard under which `listModels` serves the cache without any
upstream call: not a forced refresh, a cached array exists, and the
cache has not expired. -/
def cacheServable (st : CacheState) (currentTime : Nat) (forceRefresh : Bool) : Bool :=
  !forceRefresh && st.cachedModels.isSome && decide (currentTime < st.cacheExpiresAt)

/-- The error message `listModels` throws on an upstream failure:
`error?.message` when truthy (a non-empty string) is appended to the
fixed prefix; otherwise the fixed fallback text.  The message is a
function of the upstream error alone: no API key enters it. -/
def listModelsFailureMessage (e : UpstreamError) : String :=
  match e.message with
  | some m => if m != "" then "Failed to fetch OpenAI models: " ++ m
              else "Failed to fetch OpenAI models."
  | none => "Failed to fetch OpenAI models."

/-- `listModels(\x7b limit, forceRefresh \x7d)` from the model service:
serve the unexpired cache unless refreshing; otherwise consult the
upstream page, normalise and cache its entries with a fresh expiry, and
on a thrown upstream error clear both cache fields and rethrow the
wrapped message. -/
def listModels (st : CacheState) (currentTime : Nat) (cacheTtlMs : Nat)
    (forceRefresh : Bool)
    (upstream : Except UpstreamError (List RawModel)) :
    ModelsResult × CacheState :=
  if cacheServable st currentTime forceRefresh then
    (ModelsResult.ok (st.cachedModels.getD []), st)
  else
    match upstream with
    | Except.ok raws =>
      let models := raws.filterMap normaliseModel
      (ModelsResult.ok models,
       { cachedModels := some models, cacheExpiresAt := currentTime + cacheTtlMs })
    | Except.error e =>
      (ModelsResult.error (listModelsFailureMessage e),
       { cachedModels := none, cacheExpiresAt := 0 })

/-- `getCacheInfo()`: the cached catalog size (zero when nothing is
cached) and the expiry timestamp (null when the expiry field is zero). -/
def getCacheInfo (st : CacheState) : Nat × Option Nat :=
  ((match st.cachedModels with
    | some models => models.length
    | none => 0),
   if st.cacheExpiresAt > 0 then some st.cacheExpiresAt else none)

/-! ### Concrete transports used to exercise the retry loop -/

/-- A transport answering 500, 500, then 200 on every later attempt. -/
def transport500then200 : Nat → FetchResult
  | 0 => FetchResult.resp 500
  | 1 => FetchResult.resp 500
  | _ => FetchResult.resp 200

/-- A transport answering 500 on every attempt. -/
def transportAlways500 : Nat → FetchResult :=
  fun _ => FetchResult.resp 500

/-! ### Helper lemmas -/

theorem ratFloor_eq_intFloor (q : ℚ) : q.floor = ⌊q⌋ :=
  rfl

theorem lookupState_deleteState (states : OAuthStates) (provider : String) :
    lookupState (deleteState states provider) provider = none := by
  unfold lookupState deleteState
  have h : (states.filter (fun entry => entry.1 != provider)).find?
      (fun entry => entry.1 == provider) = none := by
    rw [List.find?_eq_none]
    intro x hx
    have hmem := (List.mem_filter.mp hx).2
    rw [bne_iff_ne] at hmem
    simp only [beq_iff_eq]
    exact hmem
  rw [h]

theorem lookupState_setState (states : OAuthStates) (provider token : String) :
    lookupState (setState states provider token) provider = some token := by
  unfold lookupState setState
  rw [List.find?_cons_of_pos _ (by simp)]

theorem countKey_setState (states : OAuthStates) (provider token : String) :
    countKey (setState states provider token) provider = 1 := by
  unfold countKey setState
  rw [List.filter_cons_of_pos (by simp)]
  have h : (states.filter (fun entry => entry.1 != provider)).filter
      (fun entry => entry.1 == provider) = [] := by
    rw [List.filter_filter]
    rw [List.filter_eq_nil_iff]
    intro a _
    simp [bne]
  rw [h]
  rfl

/-! ### Claim C1 : consumption of the pending state token -/

/-- C1 counterexample: the claim says the pending token is deleted even
when the supplied state is mismatched; on the code, a mismatched
callback leaves the session map, and hence the pending token, exactly
as it was. -/
theorem c1_pending_token_survives_mismatch :
    (enforceValidOAuthState "google" (some "attackersupplied")
        [("google", "pending123")]).states = [("google", "pending123")] ∧
    lookupState (enforceValidOAuthState "google" (some "attackersupplied")
        [("google", "pending123")]).states "google" = some "pending123" := by
  constructor <;> rfl

/-- C1 amended: the pending token is deleted exactly once when state
validation succeeds (afterwards no token remains for the provider), and
is left untouched when validation fails. -/
theorem c1_pending_token_deleted_only_on_success (provider : String)
    (queryState : Option String) (states : OAuthStates) :
    ((enforceValidOAuthState provider queryState states).action = HttpAction.next →
        (enforceValidOAuthState provider queryState states).states
            = deleteState states provider ∧
        lookupState (enforceValidOAuthState provider queryState states).states
            provider = none) ∧
    ((enforceValidOAuthState provider queryState states).action ≠ HttpAction.next →
        (enforceValidOAuthState provider queryState states).states = states) := by
  simp only [enforceValidOAuthState]
  split
  · refine ⟨?_, ?_⟩
    · intro h
      exact nomatch h
    · intro _
      rfl
  · refine ⟨?_, ?_⟩
    · intro _
      exact ⟨rfl, lookupState_deleteState states provider⟩
    · intro h
      exact absurd rfl h

/-- C1 witness: on a matching callback the token is consumed; on a
mismatched one the session is unchanged. -/
theorem c1_pending_token_deleted_only_on_success_witness :
    lookupState (enforceValidOAuthState "google" (some "tok123")
        [("google", "tok123")]).states "google" = none ∧
    (enforceValidOAuthState "google" (some "bad")
        [("google", "tok123")]).states = [("google", "tok123")] := by
  refine ⟨((c1_pending_token_deleted_only_on_success "google" (some "tok123")
      [("google", "tok123")]).1 (by decide)).2, ?_⟩
  exact (c1_pending_token_deleted_only_on_success "google" (some "bad")
      [("google", "tok123")]).2 (by decide)

/-! ### Claim C2 : response to a failed state validation -/

/-- C2: evaluating the code at the failing input of the repository's own
tests: a callback carrying a tampered state is answered with a 403 JSON
error (not a 302 redirect to the login error page, as the spec and the
tests require), and the authorization-code exchange is not invoked. -/
theorem c2_invalid_state_answered_with_403_json :
    (enforceValidOAuthState "google" (some "tampered")
        [("google", "issuedtoken")]).action
        = HttpAction.jsonError 403 "Invalid OAuth state." ∧
    callbackExchangeInvoked "google" (some "tampered")
        [("google", "issuedtoken")] = false ∧
    callbackExchangeInvoked "google" none [("google", "issuedtoken")] = false := by
  refine ⟨rfl, rfl, rfl⟩

/-! ### Claim C3 : contents of the failure log -/

/-- C3 counterexample: two failing callbacks that differ only in the
token values produce different warnings, because the logged object
carries the supplied state and the stored token verbatim. -/
theorem c3_warning_depends_on_token_values :
    (enforceValidOAuthState "google" (some "tokenAAAA")
        [("google", "tokenBBBB")]).warned ≠
    (enforceValidOAuthState "google" (some "tokenCCCC")
        [("google", "tokenDDDD")]).warned := by
  decide

/-- C3 amended: on every failed validation the warning contains the
provider name, the fixed mismatch message, and additionally the supplied
state value and the stored token value. -/
theorem c3_warning_contains_both_token_values (provider : String)
    (queryState : Option String) (states : OAuthStates) :
    (enforceValidOAuthState provider queryState states).action ≠ HttpAction.next →
    (enforceValidOAuthState provider queryState states).warned
        = some { message := "[WARN] OAuth state validation failed"
                 provider := provider
                 state := queryState
                 savedState := lookupState states provider } := by
  simp only [enforceValidOAuthState]
  split
  · intro _
    rfl
  · intro h
    exact absurd rfl h

/-- C3 witness: the warning for one concrete mismatched callback. -/
theorem c3_warning_contains_both_token_values_witness :
    (enforceValidOAuthState "google" (some "tokenAAAA")
        [("google", "tokenBBBB")]).warned
        = some { message := "[WARN] OAuth state validation failed"
                 provider := "google"
                 state := some "tokenAAAA"
                 savedState := some "tokenBBBB" } := by
  exact c3_warning_contains_both_token_values "google" (some "tokenAAAA")
      [("google", "tokenBBBB")] (by decide)

/-! ### Claim C5 : at most one pending token per provider -/

/-- C5: issuing twice for the same provider leaves exactly one pending
token, namely the second; a callback with the first token is rejected
with the 403 answer while a callback with the second passes validation. -/
theorem c5_second_issue_overwrites_first (provider t1 t2 : String)
    (states : OAuthStates) (hne : t1 ≠ t2) (ht2 : t2 ≠ "") :
    countKey (issueOAuthState provider t2 (issueOAuthState provider t1 states))
        provider = 1 ∧
    lookupState (issueOAuthState provider t2 (issueOAuthState provider t1 states))
        provider = some t2 ∧
    (enforceValidOAuthState provider (some t1)
        (issueOAuthState provider t2 (issueOAuthState provider t1 states))).action
        = HttpAction.jsonError 403 "Invalid OAuth state." ∧
    (enforceValidOAuthState provider (some t2)
        (issueOAuthState provider t2 (issueOAuthState provider t1 states))).action
        = HttpAction.next := by
  have hl : lookupState (issueOAuthState provider t2
      (issueOAuthState provider t1 states)) provider = some t2 :=
    lookupState_setState (issueOAuthState provider t1 states) provider t2
  refine ⟨countKey_setState _ _ _, hl, ?_, ?_⟩
  · have hbne : (some t1 != some t2) = true := by
      rw [bne_iff_ne]
      intro h
      exact hne (Option.some.injEq t1 t2 ▸ h)
    simp only [enforceValidOAuthState, hl]
    simp [optFalsy, hbne]
  · have hfal : optFalsy (some t2) = false := by
      simp [optFalsy, ht2]
    simp only [enforceValidOAuthState, hl]
    simp [hfal]

/-- C5 witness at concrete tokens. -/
theorem c5_second_issue_overwrites_first_witness :
    countKey (issueOAuthState "google" "tokB"
        (issueOAuthState "google" "tokA" [])) "google" = 1 ∧
    lookupState (issueOAuthState "google" "tokB"
        (issueOAuthState "google" "tokA" [])) "google" = some "tokB" ∧
    (enforceValidOAuthState "google" (some "tokA")
        (issueOAuthState "google" "tokB"
          (issueOAuthState "google" "tokA" []))).action
        = HttpAction.jsonError 403 "Invalid OAuth state." ∧
    (enforceValidOAuthState "google" (some "tokB")
        (issueOAuthState "google" "tokB"
          (issueOAuthState "google" "tokA" []))).action = HttpAction.next :=
  c5_second_issue_overwrites_first "google" "tokA" "tokB" [] (by decide) (by decide)

/-! ### Retry loop lemmas -/

theorem attemptsMade_fetchLoop_zero (transport : Nat → FetchResult) (attempt : Nat) :
    attemptsMade (fetchLoop transport attempt 0) = attempt + 1 := by
  cases h : transport attempt <;> simp [fetchLoop, h, attemptsMade]

theorem attemptsMade_fetchLoop_le (transport : Nat → FetchResult) (r attempt : Nat) :
    attemptsMade (fetchLoop transport attempt r) ≤ attempt + r + 1 := by
  induction r generalizing attempt with
  | zero =>
    rw [attemptsMade_fetchLoop_zero]
  | succ r ih =>
    cases h : transport attempt with
    | resp status =>
      simp only [fetchLoop, h]
      split
      · have := ih (attempt + 1)
        omega
      · simp only [attemptsMade]
        omega
    | err isAbort =>
      simp only [fetchLoop, h]
      split
      · simp only [attemptsMade]
        omega
      · have := ih (attempt + 1)
        omega

theorem attemptsMade_fetchLoop_retryable (transport : Nat → FetchResult)
    (h : ∀ n, retryableStep (transport n) = true) (r attempt : Nat) :
    attemptsMade (fetchLoop transport attempt r) = attempt + r + 1 := by
  induction r generalizing attempt with
  | zero =>
    rw [attemptsMade_fetchLoop_zero]
  | succ r ih =>
    have hr := h attempt
    cases hc : transport attempt with
    | resp status =>
      rw [hc] at hr
      simp only [retryableStep] at hr
      simp only [fetchLoop, hc, hr, if_true]
      rw [ih (attempt + 1)]
      omega
    | err isAbort =>
      rw [hc] at hr
      simp only [retryableStep, Bool.not_eq_true'] at hr
      simp only [fetchLoop, hc, hr]
      rw [if_neg (fun hfalse => Bool.noConfusion hfalse)]
      rw [ih (attempt + 1)]
      omega

/-! ### Claim C6 : attempt counts of fetchWithRetry -/

/-- C6: on the status sequence 500, 500, 200 with retries two, exactly
three attempts are made and the third response (the 200) is returned;
on all-500 with retries one, exactly two attempts are made and the
second 500 is returned; with retries zero, exactly one attempt is made
and whatever the first attempt produced settles the call. -/
theorem c6_fetchWithRetry_attempt_counts :
    fetchWithRetry DEFAULT_MAX_RETRIES (JsNum.finite 2) transport500then200
        = FetchOutcome.returned 2 200 ∧
    attemptsMade (fetchWithRetry DEFAULT_MAX_RETRIES (JsNum.finite 2)
        transport500then200) = 3 ∧
    fetchWithRetry DEFAULT_MAX_RETRIES (JsNum.finite 1) transportAlways500
        = FetchOutcome.returned 1 500 ∧
    attemptsMade (fetchWithRetry DEFAULT_MAX_RETRIES (JsNum.finite 1)
        transportAlways500) = 2 ∧
    (∀ transport : Nat → FetchResult,
        attemptsMade (fetchWithRetry DEFAULT_MAX_RETRIES (JsNum.finite 0)
            transport) = 1 ∧
        fetchWithRetry DEFAULT_MAX_RETRIES (JsNum.finite 0) transport
            = (match transport 0 with
               | FetchResult.resp status => FetchOutcome.returned 0 status
               | FetchResult.err isAbort => FetchOutcome.threw 0 isAbort)) := by
  refine ⟨by decide, by decide, by decide, by decide, ?_⟩
  intro transport
  have h0 : normalizeRetryCount DEFAULT_MAX_RETRIES (JsNum.finite 0) = 0 := by decide
  unfold fetchWithRetry
  rw [h0]
  exact ⟨attemptsMade_fetchLoop_zero transport 0, rfl⟩

/-! ### Claim C10 : normalization of the retries option -/

/-- C10: a non-finite retries value behaves exactly like the configured
default retry count; a finite value r caps the attempts at
max(0, floor r) + 1, with that exact count reached whenever every
attempt is retryable; and a negative r yields exactly one attempt on
every transport. -/
theorem c10_normalizeRetryCount_total_attempts (defaultMaxRetries : Nat) :
    (∀ transport : Nat → FetchResult,
        fetchWithRetry defaultMaxRetries JsNum.nan transport
            = fetchWithRetry defaultMaxRetries
                (JsNum.finite (defaultMaxRetries : ℚ)) transport ∧
        fetchWithRetry defaultMaxRetries JsNum.posInf transport
            = fetchWithRetry defaultMaxRetries
                (JsNum.finite (defaultMaxRetries : ℚ)) transport ∧
        fetchWithRetry defaultMaxRetries JsNum.negInf transport
            = fetchWithRetry defaultMaxRetries
                (JsNum.finite (defaultMaxRetries : ℚ)) transport) ∧
    (∀ (q : ℚ) (transport : Nat → FetchResult),
        attemptsMade (fetchWithRetry defaultMaxRetries (JsNum.finite q) transport)
            ≤ (max 0 q.floor).toNat + 1) ∧
    (∀ (q : ℚ) (transport : Nat → FetchResult),
        (∀ n, retryableStep (transport n) = true) →
        attemptsMade (fetchWithRetry defaultMaxRetries (JsNum.finite q) transport)
            = (max 0 q.floor).toNat + 1) ∧
    (∀ (q : ℚ) (transport : Nat → FetchResult), q < 0 →
        attemptsMade (fetchWithRetry defaultMaxRetries (JsNum.finite q) transport)
            = 1) := by
  have hnorm : normalizeRetryCount defaultMaxRetries
      (JsNum.finite (defaultMaxRetries : ℚ)) = defaultMaxRetries := by
    simp only [normalizeRetryCount]
    rw [ratFloor_eq_intFloor, Int.floor_natCast]
    omega
  refine ⟨?_, ?_, ?_, ?_⟩
  · intro transport
    unfold fetchWithRetry
    rw [hnorm]
    exact ⟨rfl, rfl, rfl⟩
  · intro q transport
    simp only [fetchWithRetry, normalizeRetryCount]
    have := attemptsMade_fetchLoop_le transport (max 0 q.floor).toNat 0
    omega
  · intro q transport h
    simp only [fetchWithRetry, normalizeRetryCount]
    rw [attemptsMade_fetchLoop_retryable transport h (max 0 q.floor).toNat 0]
    omega
  · intro q transport hq
    have hfl : q.floor < 0 := by
      have h2 : ¬ ((0 : ℤ) ≤ q.floor) := by
        rw [Rat.le_floor]
        push_neg
        exact_mod_cast hq
      omega
    have hz : normalizeRetryCount defaultMaxRetries (JsNum.finite q) = 0 := by
      simp only [normalizeRetryCount]
      omega
    unfold fetchWithRetry
    rw [hz]
    exact attemptsMade_fetchLoop_zero transport 0

/-- C10 witness: NaN behaves like the default; with retries 2.9 on an
always-retryable transport exactly three attempts happen; with retries
negative two and a half exactly one attempt happens. -/
theorem c10_normalizeRetryCount_total_attempts_witness :
    fetchWithRetry 3 JsNum.nan transportAlways500
        = fetchWithRetry 3 (JsNum.finite (3 : ℚ)) transportAlways500 ∧
    attemptsMade (fetchWithRetry 3 (JsNum.finite (29 / 10 : ℚ))
        transportAlways500) = (max 0 ((29 / 10 : ℚ)).floor).toNat + 1 ∧
    attemptsMade (fetchWithRetry 3 (JsNum.finite (-(5 / 2) : ℚ))
        transportAlways500) = 1 := by
  refine ⟨?_, ?_, ?_⟩
  · exact ((c10_normalizeRetryCount_total_attempts 3).1 transportAlways500).1
  · exact (c10_normalizeRetryCount_total_attempts 3).2.2.1 (29 / 10 : ℚ)
      transportAlways500 (fun _ => rfl)
  · exact (c10_normalizeRetryCount_total_attempts 3).2.2.2 (-(5 / 2) : ℚ)
      transportAlways500 (by norm_num)

/-! ### Fallback classifier lemma -/

theorem shouldFallback_iff (status : Nat) (body : String) :
    shouldFallbackToResponses status (some body) = true ↔
      (status = 404 ∨ status = 405 ∨
        (status = 400 ∧ ∃ pattern ∈ FALLBACK_ERROR_PATTERNS,
            jsToLower pattern <:+: jsToLower body)) := by
  unfold shouldFallbackToResponses regexTestCI
  by_cases h4 : status = 404
  · subst h4
    simp
  by_cases h5 : status = 405
  · subst h5
    simp
  by_cases h0 : status = 400
  · subst h0
    simp [List.any_eq_true, h4, h5]
  · simp [h4, h5, h0]

/-! ### Claim C7 : fallback to the responses endpoint -/

/-- C7: on a failed primary chat-completion response, the responses
endpoint is invoked exactly when the status is 404 or 405, or the
status is 400 and the body contains (case-insensitively) one of the
known responses-API hints; a 401 failure settles with a terminal
request error and only the chat-completions endpoint was called. -/
theorem c7_generateContent_fallback_condition (prompt : JsPrompt)
    (chatReply respReply : HttpReply)
    (extractChat extractResp : String → Option String)
    (hp : promptOk prompt = true) (hfail : respOk chatReply.status = false) :
    (Endpoint.responses ∈
        (generateContent prompt chatReply respReply extractChat extractResp).calls ↔
      (chatReply.status = 404 ∨ chatReply.status = 405 ∨
        (chatReply.status = 400 ∧ ∃ pattern ∈ FALLBACK_ERROR_PATTERNS,
            jsToLower pattern <:+: jsToLower chatReply.body))) ∧
    (chatReply.status = 401 →
      (generateContent prompt chatReply respReply extractChat extractResp).calls
          = [Endpoint.chatCompletions] ∧
      (generateContent prompt chatReply respReply extractChat extractResp).result
          = GenResult.error (GenError.requestError Endpoint.chatCompletions 401
              chatReply.body false)) := by
  by_cases hsf : shouldFallbackToResponses chatReply.status (some chatReply.body) = true
  · refine ⟨⟨fun _ => (shouldFallback_iff _ _).mp hsf, fun _ => ?_⟩, fun h401 => ?_⟩
    · simp [generateContent, invokeChatCompletions, hp, hfail, hsf]
    · exfalso
      rw [h401] at hsf
      simp [shouldFallbackToResponses] at hsf
  · have hsf2 : shouldFallbackToResponses chatReply.status (some chatReply.body)
        = false := by
      cases h : shouldFallbackToResponses chatReply.status (some chatReply.body)
      · rfl
      · exact absurd h hsf
    refine ⟨⟨fun hmem => ?_, fun hrhs => ?_⟩, fun h401 => ?_⟩
    · exfalso
      simp [generateContent, invokeChatCompletions, hp, hfail, hsf2] at hmem
    · exact absurd ((shouldFallback_iff _ _).mpr hrhs) hsf
    · have hsf401 : shouldFallbackToResponses 401 (some chatReply.body) = false := by
        simp [shouldFallbackToResponses]
      have hfail401 : respOk 401 = false := by decide
      constructor
      · simp [generateContent, invokeChatCompletions, hp, hfail, hsf2]
      · simp [generateContent, invokeChatCompletions, hp, hfail401, h401, hsf401]

/-- C7 witness: a 404 primary failure reaches the responses endpoint,
and a 401 primary failure is terminal with only the chat call made. -/
theorem c7_generateContent_fallback_condition_witness :
    Endpoint.responses ∈
      (generateContent (JsPrompt.str "hello") { status := 404, body := "" }
        { status := 200, body := "x" } (fun _ => some "ok")
        (fun _ => some "ok")).calls ∧
    (generateContent (JsPrompt.str "hello") { status := 401, body := "denied" }
        { status := 200, body := "x" } (fun _ => some "ok")
        (fun _ => some "ok")).calls = [Endpoint.chatCompletions] := by
  constructor
  · exact (c7_generateContent_fallback_condition (JsPrompt.str "hello")
      { status := 404, body := "" } { status := 200, body := "x" }
      (fun _ => some "ok") (fun _ => some "ok") (by decide) (by decide)).1.mpr
      (Or.inl rfl)
  · exact ((c7_generateContent_fallback_condition (JsPrompt.str "hello")
      { status := 401, body := "denied" } { status := 200, body := "x" }
      (fun _ => some "ok") (fun _ => some "ok") (by decide) (by decide)).2 rfl).1

/-! ### Claim C9 : prompt validation happens before any fetch -/

/-- C9: a non-string or blank prompt makes generateContent settle with
the invalid-prompt error, whose message says the prompt must be a
non-empty string, and no upstream endpoint is fetched. -/
theorem c9_generateContent_rejects_bad_prompt (prompt : JsPrompt)
    (chatReply respReply : HttpReply)
    (extractChat extractResp : String → Option String)
    (h : promptOk prompt = false) :
    generateContent prompt chatReply respReply extractChat extractResp
        = { result := GenResult.error GenError.invalidPrompt, calls := [] } ∧
    genErrorMessage GenError.invalidPrompt
        = "Prompt must be a non-empty string." := by
  constructor
  · simp [generateContent, h]
  · rfl

/-- C9 witness: a whitespace-only prompt and a non-string prompt are
both rejected without any endpoint call. -/
theorem c9_generateContent_rejects_bad_prompt_witness :
    generateContent (JsPrompt.str "   ") { status := 500, body := "" }
        { status := 500, body := "" } (fun _ => none) (fun _ => none)
        = { result := GenResult.error GenError.invalidPrompt, calls := [] } ∧
    generateContent JsPrompt.notAString { status := 500, body := "" }
        { status := 500, body := "" } (fun _ => none) (fun _ => none)
        = { result := GenResult.error GenError.invalidPrompt, calls := [] } := by
  constructor
  · exact (c9_generateContent_rejects_bad_prompt (JsPrompt.str "   ")
      { status := 500, body := "" } { status := 500, body := "" }
      (fun _ => none) (fun _ => none) (by decide)).1
  · exact (c9_generateContent_rejects_bad_prompt JsPrompt.notAString
      { status := 500, body := "" } { status := 500, body := "" }
      (fun _ => none) (fun _ => none) rfl).1

/-! ### Claim C8 : cache clearing on refresh failure -/

/-- C8: whenever the refresh path runs (the cache is not servable, in
particular on any forced refresh) and the upstream call fails, the
cache is cleared entirely (size zero, expiry null), the raised message
is the fixed prefix followed by the upstream message (which it
therefore contains), and the raised message depends on the upstream
error alone, not on the cache contents, the clock, the TTL or any key. -/
theorem c8_listModels_failure_clears_cache (st : CacheState)
    (currentTime cacheTtlMs : Nat) (forceRefresh : Bool)
    (e : UpstreamError) (m : String)
    (hserve : cacheServable st currentTime forceRefresh = false)
    (hm : e.message = some m) (hmne : m ≠ "") :
    getCacheInfo (listModels st currentTime cacheTtlMs forceRefresh
        (Except.error e)).2 = (0, none) ∧
    (listModels st currentTime cacheTtlMs forceRefresh (Except.error e)).1
        = ModelsResult.error ("Failed to fetch OpenAI models: " ++ m) ∧
    m.data <:+: ("Failed to fetch OpenAI models: " ++ m).data ∧
    (∀ (st2 : CacheState) (t2 ttl2 : Nat) (force2 : Bool),
        cacheServable st2 t2 force2 = false →
        (listModels st2 t2 ttl2 force2 (Except.error e)).1
            = (listModels st currentTime cacheTtlMs forceRefresh
                (Except.error e)).1) := by
  have hmsg : listModelsFailureMessage e = "Failed to fetch OpenAI models: " ++ m := by
    simp only [listModelsFailureMessage, hm]
    rw [if_pos (bne_iff_ne.mpr hmne)]
  refine ⟨?_, ?_, ?_, ?_⟩
  · simp [listModels, hserve, getCacheInfo]
  · simp [listModels, hserve, hmsg]
  · rw [String.data_append]
    exact (List.suffix_append _ _).isInfix
  · intro st2 t2 ttl2 force2 hs2
    simp [listModels, hserve, hs2]

/-- C8 witness: a successful fetch populates the cache (size one, expiry
set); a forced refresh that then fails clears it and raises the wrapped
upstream message. -/
theorem c8_listModels_failure_clears_cache_witness :
    getCacheInfo (listModels initialCacheState 10 300000 false
        (Except.ok [{ isObject := true, id := some "gpt-4o-mini",
                      created := some 1, owned_by := some "openai",
                      ownedBy := none }])).2 = (1, some 300010) ∧
    getCacheInfo (listModels (listModels initialCacheState 10 300000 false
        (Except.ok [{ isObject := true, id := some "gpt-4o-mini",
                      created := some 1, owned_by := some "openai",
                      ownedBy := none }])).2 20 300000 true
        (Except.error { message := some "boom" })).2 = (0, none) ∧
    (listModels (listModels initialCacheState 10 300000 false
        (Except.ok [{ isObject := true, id := some "gpt-4o-mini",
                      created := some 1, owned_by := some "openai",
                      ownedBy := none }])).2 20 300000 true
        (Except.error { message := some "boom" })).1
        = ModelsResult.error "Failed to fetch OpenAI models: boom" := by
  have h := c8_listModels_failure_clears_cache
      (listModels initialCacheState 10 300000 false
        (Except.ok [{ isObject := true, id := some "gpt-4o-mini",
                      created := some 1, owned_by := some "openai",
                      ownedBy := none }])).2 20 300000 true
      { message := some "boom" } "boom" (by decide) rfl (by decide)
  exact ⟨by decide, h.1, h.2.1⟩
